/-
Verification of the coordinate-calculation geometry core
(src/util/coordinate_calculation.cpp) against its specification.

Shallow embedding conventions:
  * Fixed-point coordinates (`osrm::util::Coordinate`, int32 degree values
    scaled by COORDINATE_PRECISION = 10^6) are modelled as pairs of integers.
  * IEEE double arithmetic is idealised as exact arithmetic: over ℚ for the
    purely algebraic functions (circle fitting, regression), over ℝ for the
    trigonometric ones (distances, bearings, angles).
  * DBL_EPSILON comparisons from the source are kept verbatim
    (epsilon = 2^-52).
  * Helpers that live in headers outside src/ (projectPointOnSegment,
    web_mercator, toFloating/toFixed, atan2_lookup, numeric constants) are
    modelled from the spec; each such definition carries a doc comment
    saying so.
-/
import Mathlib

open Real (pi)

namespace CoordCalc

/-- Modelled from the spec: the fixed-point GeoCoordinate of §3 ("degrees
scaled by a precision factor", `util::Coordinate` from coordinate.hpp, which
is not under src/): a pair of scaled-integer longitude/latitude values. -/
structure Coordinate where
  lon : ℤ
  lat : ℤ
deriving DecidableEq, Repr

instance : Inhabited Coordinate := ⟨⟨0, 0⟩⟩

/-- COORDINATE_PRECISION = 10^6, modelled from the spec (§3: fixed-point
integer form, degrees scaled by a precision factor of 10^6). -/
def precision : ℤ := 1000000

/-- DBL_EPSILON (std::numeric_limits of double, epsilon), exactly 2^-52,
as a rational. -/
def epsQ : ℚ := 1 / 2 ^ 52

/-- DBL_EPSILON as a real. -/
noncomputable def epsR : ℝ := 1 / 2 ^ 52

/-- std::abs on double values (here exact rationals), written as the branch
it is so that concrete inputs evaluate inside the kernel. -/
def qabs (x : ℚ) : ℚ := if x < 0 then -x else x

/-- std::min on double values. -/
def qmin (a b : ℚ) : ℚ := if b < a then b else a

/-- std::max on double values. -/
def qmax (a b : ℚ) : ℚ := if a < b then b else a

lemma qabs_eq (x : ℚ) : qabs x = |x| := by
  unfold qabs
  split_ifs with h
  · exact (abs_of_neg h).symm
  · exact (abs_of_nonneg (not_lt.mp h)).symm

lemma qmin_eq (a b : ℚ) : qmin a b = min a b := by
  unfold qmin
  split_ifs with h
  · exact (min_eq_right h.le).symm
  · exact (min_eq_left (not_lt.mp h)).symm

lemma qmax_eq (a b : ℚ) : qmax a b = max a b := by
  unfold qmax
  split_ifs with h
  · exact (max_eq_right h.le).symm
  · exact (max_eq_left (not_lt.mp h)).symm

/-- numeric_limits of double, max(): (2^53 - 1) * 2^971. -/
noncomputable def dblMax : ℝ := (2 ^ 53 - 1) * 2 ^ 971

/-- Modelled from the spec: detail::EARTH_RADIUS, the fixed Earth-radius
constant of §4.2 (value from the repository headers, 6372797.560856 m). -/
noncomputable def earthRadius : ℝ := 6372797560856 / 1000000

/-- Modelled from the spec: detail::DEGREE_TO_RAD, the degree→radian
conversion constant used by the distance metrics (§4.2: "coordinates
converted to radians from the fixed-point degree form"); idealised to the
exact value pi / 180. -/
noncomputable def degreeToRad : ℝ := pi / 180

/-- Modelled from the spec: toFloating on a fixed longitude/latitude value
(§4.1, fixed → float conversion is exact); as a rational. -/
def fixedToQ (z : ℤ) : ℚ := (z : ℚ) / 1000000

/-- Modelled from the spec: toFloating on a fixed longitude/latitude value
(§4.1, fixed → float conversion is exact); as a real. -/
noncomputable def fixedToR (z : ℤ) : ℝ := (z : ℝ) / 1000000

/-- degToRad from the source: degree * (pi / 180). -/
noncomputable def degToRad (degree : ℝ) : ℝ := degree * (pi / 180)

/-- radToDeg from the source: radian * (180 * (1 / pi)). -/
noncomputable def radToDeg (radian : ℝ) : ℝ := radian * (180 * (1 / pi))

/-- The C library atan2 (used by the source through std::atan2, and — for
computeAngle — through the spec's angle-lookup capability of §6, which has
"the same sign convention and branch behavior as the exact function"):
branch-exact two-argument arctangent. -/
noncomputable def atan2 (y x : ℝ) : ℝ :=
  if 0 < x then Real.arctan (y / x)
  else if x < 0 then
    (if 0 ≤ y then Real.arctan (y / x) + pi else Real.arctan (y / x) - pi)
  else if 0 < y then pi / 2
  else if y < 0 then -(pi / 2)
  else 0

/-- The first wraparound loop of the source (bearing, computeAngle):
`while (result < 0) result += 360;`. -/
noncomputable def wrapAdd360 (x : ℝ) : ℝ :=
  if h : x < 0 then wrapAdd360 (x + 360) else x
termination_by (⌈-x / 360⌉).toNat
decreasing_by
  have h360 : (0 : ℝ) < 360 := by norm_num
  have hpos : 0 < -x / 360 := div_pos (by linarith) h360
  have hone : (1 : ℤ) ≤ ⌈-x / 360⌉ := Int.ceil_pos.mpr hpos
  have hstep : -(x + 360) / 360 = -x / 360 - (1 : ℤ) := by push_cast; ring
  have : ⌈-(x + 360) / 360⌉ = ⌈-x / 360⌉ - 1 := by
    rw [hstep, Int.ceil_sub_int]
  simp only [this]
  omega

/-- The second wraparound loop of the source (bearing):
`while (result >= 360) result -= 360;`. -/
noncomputable def wrapSub360 (x : ℝ) : ℝ :=
  if h : 360 ≤ x then wrapSub360 (x - 360) else x
termination_by (⌊x / 360⌋).toNat
decreasing_by
  have h360 : (0 : ℝ) < 360 := by norm_num
  have hone : (1 : ℤ) ≤ ⌊x / 360⌋ := by
    rw [Int.le_floor]
    rw [le_div_iff₀ h360]
    push_cast
    linarith
  have hstep : (x - 360) / 360 = x / 360 - (1 : ℤ) := by push_cast; ring
  have : ⌊(x - 360) / 360⌋ = ⌊x / 360⌋ - 1 := by
    rw [hstep, Int.floor_sub_int]
  simp only [this]
  omega

/-- squaredEuclideanDistance from the source: the int32 deltas are
sign-extended into uint64 values dx, dy and dx*dx + dy*dy is computed in
uint64 arithmetic.  int32 wraparound and the uint64 value are made explicit
(2^31 = 2147483648, 2^32 = 4294967296, 2^64 = 18446744073709551616); the
result is the value of the returned uint64. -/
def toInt32 (z : ℤ) : ℤ := (z + 2147483648) % 4294967296 - 2147483648

/-- The value of a signed integer converted to uint64 (sign extension:
reduction mod 2^64). -/
def toUInt64 (z : ℤ) : ℤ := z % 18446744073709551616

/-- squaredEuclideanDistance from the source (lines 28-34). -/
def squaredEuclideanDistance (lhs rhs : Coordinate) : ℤ :=
  (toUInt64 (toInt32 (lhs.lon - rhs.lon)) * toUInt64 (toInt32 (lhs.lon - rhs.lon)) +
      toUInt64 (toInt32 (lhs.lat - rhs.lat)) * toUInt64 (toInt32 (lhs.lat - rhs.lat))) %
    18446744073709551616

/-- haversineDistance from the source (lines 36-63): fixed-point values
divided by COORDINATE_PRECISION, converted to radians, haversine formula
via atan2 of square roots. -/
noncomputable def haversineDistance (c1 c2 : Coordinate) : ℝ :=
  let dlat1 := (c1.lat : ℝ) / 1000000 * degreeToRad
  let dlong1 := (c1.lon : ℝ) / 1000000 * degreeToRad
  let dlat2 := (c2.lat : ℝ) / 1000000 * degreeToRad
  let dlong2 := (c2.lon : ℝ) / 1000000 * degreeToRad
  let dlong := dlong1 - dlong2
  let dlat := dlat1 - dlat2
  let aharv := Real.sin (dlat / 2) ^ 2 +
    Real.cos dlat1 * Real.cos dlat2 * Real.sin (dlong / 2) ^ 2
  let charv := 2 * atan2 (Real.sqrt aharv) (Real.sqrt (1 - aharv))
  earthRadius * charv

/-- greatCircleDistance from the source (lines 65-84): flat-earth
approximation, longitude delta scaled by the cosine of the mean latitude,
Euclidean norm (std::hypot modelled as the square root of the sum of
squares) times the Earth radius. -/
noncomputable def greatCircleDistance (c1 c2 : Coordinate) : ℝ :=
  let float_lat1 := (c1.lat : ℝ) / 1000000 * degreeToRad
  let float_lon1 := (c1.lon : ℝ) / 1000000 * degreeToRad
  let float_lat2 := (c2.lat : ℝ) / 1000000 * degreeToRad
  let float_lon2 := (c2.lon : ℝ) / 1000000 * degreeToRad
  let x_value := (float_lon2 - float_lon1) * Real.cos ((float_lat1 + float_lat2) / 2)
  let y_value := float_lat2 - float_lat1
  Real.sqrt (x_value ^ 2 + y_value ^ 2) * earthRadius

/-- Modelled from the spec: the segment-projection helper of §6 / §4.3
(projectPointOnSegment, declared in coordinate_calculation.hpp which is not
under src/), operating on planar float coordinates: interpolation ratio of
the query on the supporting line, clamped to [0,1] (§4.3: points outside
[0,1] coincide with the corresponding endpoint's projection), together with
the nearest point; a degenerate segment (squared length below epsilon)
yields the source point itself (§4.3). -/
noncomputable def projectPointOnSegment (source target query : ℝ × ℝ) :
    ℝ × (ℝ × ℝ) :=
  let slopeLon := target.1 - source.1
  let slopeLat := target.2 - source.2
  let relLon := query.1 - source.1
  let relLat := query.2 - source.2
  let unnormedRatio := slopeLon * relLon + slopeLat * relLat
  let squaredLength := slopeLon * slopeLon + slopeLat * slopeLat
  if squaredLength < epsR then (0, source)
  else
    let t := max 0 (min 1 (unnormedRatio / squaredLength))
    (t, (source.1 + t * slopeLon, source.2 + t * slopeLat))

/-- Modelled from the spec: web_mercator::latToY (§6, conformal
web-mercator-style projection; web_mercator.hpp is not under src/): the
standard spherical mercator y of a latitude in degrees. -/
noncomputable def latToY (latitude : ℝ) : ℝ :=
  180 / pi * Real.log (Real.tan (pi / 4 + latitude * (pi / 180) / 2))

/-- Modelled from the spec: the inverse of latToY (§6: the projection pair
satisfies inverse(forward(c)) == c). -/
noncomputable def yToLat (y : ℝ) : ℝ :=
  360 / pi * Real.arctan (Real.exp (y * (pi / 180))) - 90

/-- Modelled from the spec: web_mercator::fromWGS84 — forward-project a
fixed coordinate into the planar conformal projection (§6). -/
noncomputable def fromWGS84 (c : Coordinate) : ℝ × ℝ :=
  (fixedToR c.lon, latToY (fixedToR c.lat))

/-- Modelled from the spec: float→fixed conversion rounds to the nearest
representable fixed unit (§4.1). -/
noncomputable def floatToCoord (p : ℝ × ℝ) : Coordinate :=
  ⟨round (p.1 * 1000000), round (p.2 * 1000000)⟩

/-- Modelled from the spec: web_mercator::toWGS84 — inverse-project a
planar point back to a geographic (fixed) coordinate (§6, §4.1). -/
noncomputable def toWGS84 (p : ℝ × ℝ) : Coordinate :=
  ⟨round (p.1 * 1000000), round (yToLat p.2 * 1000000)⟩

/-- The float (unscaled-degree) view of a fixed coordinate, used where the
source implicitly converts Coordinate to FloatCoordinate. -/
noncomputable def coordToFloat (c : Coordinate) : ℝ × ℝ :=
  (fixedToR c.lon, fixedToR c.lat)

/-- perpendicularDistance from the source (lines 86-117, the simplified
overload composed with the full one): mercator-project the three
coordinates, project the query on the segment, inverse-project the nearest
point, and return the great-circle distance to it. -/
noncomputable def perpendicularDistance (source target query : Coordinate) : ℝ :=
  let projectedNearest :=
    (projectPointOnSegment (fromWGS84 source) (fromWGS84 target) (fromWGS84 query)).2
  let nearest := toWGS84 projectedNearest
  greatCircleDistance query nearest

/-- bearing from the source (lines 141-162): initial great-circle bearing,
normalized by the two wraparound loops. -/
noncomputable def bearing (first second : Coordinate) : ℝ :=
  let lonDiff := fixedToR (second.lon - first.lon)
  let lonDelta := degToRad lonDiff
  let lat1 := degToRad (fixedToR first.lat)
  let lat2 := degToRad (fixedToR second.lat)
  let y := Real.sin lonDelta * Real.cos lat2
  let x := Real.cos lat1 * Real.sin lat2 -
    Real.sin lat1 * Real.cos lat2 * Real.cos lonDelta
  wrapSub360 (wrapAdd360 (radToDeg (atan2 y x)))

/-- computeAngle from the source (lines 164-192): 180 when either outer
point coincides with the middle point; otherwise the difference of the two
atan2 values of the mercator-plane direction vectors, in degrees,
normalized by the add-360 loop. -/
noncomputable def computeAngle (first second third : Coordinate) : ℝ :=
  if first = second ∨ second = third then 180
  else
    let v1x := fixedToR (first.lon - second.lon)
    let v1y := latToY (fixedToR first.lat) - latToY (fixedToR second.lat)
    let v2x := fixedToR (third.lon - second.lon)
    let v2y := latToY (fixedToR third.lat) - latToY (fixedToR second.lat)
    wrapAdd360 ((atan2 v2y v2x - atan2 v1y v1x) * 180 / pi)

/-- circleCenter from the source (lines 194-272), over exact rational
arithmetic, with an explicit recursion-depth (call-stack) budget: the
outer `none` means the budget was exhausted before a non-recursive case
was reached, `some r` means the source function returns (r = none being
the source's boost::none, "no center").  The branch structure, epsilon
comparisons and closed-form intersection mirror the source line by line. -/
def circleCenterF : ℕ → Coordinate → Coordinate → Coordinate → Option (Option Coordinate)
  | 0, _, _, _ => none
  | fuel + 1, C1, C2, C3 =>
    if C1 = C2 ∨ C2 = C3 ∨ C1 = C3 then some none
    else
      let C2C1_lat := fixedToQ (C2.lat - C1.lat)
      let C2C1_lon := fixedToQ (C2.lon - C1.lon)
      let C3C2_lat := fixedToQ (C3.lat - C2.lat)
      let C3C2_lon := fixedToQ (C3.lon - C2.lon)
      if (qabs C2C1_lon < epsQ ∧ qabs C3C2_lon < epsQ) ∨
          (qabs C2C1_lat < epsQ ∧ qabs C3C2_lat < epsQ) then some none
      else if qabs C2C1_lon < epsQ then circleCenterF fuel C1 C3 C2
      else if qabs C3C2_lon < epsQ then circleCenterF fuel C2 C1 C3
      else
        let C2C1_slope := C2C1_lat / C2C1_lon
        let C3C2_slope := C3C2_lat / C3C2_lon
        if qabs C2C1_slope < epsQ then circleCenterF fuel C3 C2 C1
        else if qabs (C2C1_slope - C3C2_slope) < epsQ then some none
        else
          let C1_y := fixedToQ C1.lat
          let C1_x := fixedToQ C1.lon
          let C2_y := fixedToQ C2.lat
          let C2_x := fixedToQ C2.lon
          let C3_y := fixedToQ C3.lat
          let C3_x := fixedToQ C3.lon
          let lon := (C2C1_slope * C3C2_slope * (C1_y - C3_y) +
              C3C2_slope * (C1_x + C2_x) - C2C1_slope * (C2_x + C3_x)) /
            (2 * (C3C2_slope - C2C1_slope))
          let lat := (1 / 2 * (C1_x + C2_x) - lon) / C2C1_slope + 1 / 2 * (C1_y + C2_y)
          if lon < -180 ∨ 180 < lon ∨ lat < -90 ∨ 90 < lat then some none
          else some (some ⟨round (lon * 1000000), round (lat * 1000000)⟩)

/-- circleCenter with the recursion budget 3 (the maximal recursion depth
actually reached from bounded inputs, see the termination theorem): the
result of the source function. -/
def circleCenter (C1 C2 C3 : Coordinate) : Option Coordinate :=
  (circleCenterF 4 C1 C2 C3).join

/-- circleRadius from the source (lines 274-282): the haversine distance
from the first input point to the center when one exists, otherwise the
infinite radius (the returned double is infinity, modelled in the extended
reals). -/
noncomputable def circleRadius (C1 C2 C3 : Coordinate) : EReal :=
  match circleCenter C1 C2 C3 with
  | some center => (haversineDistance C1 center : EReal)
  | none => ⊤

/-- leastSquareRegression from the source (lines 324-366), over exact
rational arithmetic: longitude range and the four accumulated sums, the
epsilon-degenerate fallback returning the front and back coordinates, and
otherwise the two synthetic endpoints at the extended extreme longitudes
on the fitted line (float→fixed conversion rounds, §4.1). -/
def leastSquareRegression (coordinates : List Coordinate) : Coordinate × Coordinate :=
  let flon : Coordinate → ℚ := fun c => fixedToQ c.lon
  let flat : Coordinate → ℚ := fun c => fixedToQ c.lat
  let front := coordinates.headI
  let minLon := coordinates.foldl (fun m c => qmin m (flon c)) (flon front)
  let maxLon := coordinates.foldl (fun m c => qmax m (flon c)) (flon front)
  let sumLon := coordinates.foldl (fun s c => s + flon c) 0
  let sumLonLon := coordinates.foldl (fun s c => s + flon c * flon c) 0
  let sumLat := coordinates.foldl (fun s c => s + flat c) 0
  let sumLonLat := coordinates.foldl (fun s c => s + flon c * flat c) 0
  let dividend := (coordinates.length : ℚ) * sumLonLat - sumLon * sumLat
  let divisor := (coordinates.length : ℚ) * sumLonLon - sumLon * sumLon
  if qabs divisor < epsQ then (front, coordinates.getLastI)
  else
    let slope := dividend / divisor
    let intercept := (sumLat - slope * sumLon) / (coordinates.length : ℚ)
    let offset : ℚ := 1 / 100000
    let lonFirst := minLon - offset
    let lonEnd := maxLon + offset
    (⟨round (lonFirst * 1000000), round ((intercept + slope * lonFirst) * 1000000)⟩,
      ⟨round (lonEnd * 1000000), round ((intercept + slope * lonEnd) * 1000000)⟩)

/-- findClosestDistance (coordinate, segment) from the source (lines
368-375): the haversine distance from the query to the result of
projectPointOnSegment applied directly to the (unprojected) float views of
the coordinates; the float result is implicitly converted back to a fixed
coordinate. -/
noncomputable def findClosestDistanceSeg (coordinate segmentBegin segmentEnd : Coordinate) : ℝ :=
  haversineDistance coordinate
    (floatToCoord (projectPointOnSegment (coordToFloat segmentBegin)
      (coordToFloat segmentEnd) (coordToFloat coordinate)).2)

/-- The adjacent_find accumulation of findClosestDistance (coordinate,
polyline) from the source (lines 377-392): fold the running minimum over
every adjacent pair. -/
noncomputable def closestLoop (coordinate : Coordinate) : ℝ → List Coordinate → ℝ
  | currentMin, a :: b :: rest =>
    closestLoop coordinate (min currentMin (findClosestDistanceSeg coordinate a b)) (b :: rest)
  | currentMin, _ => currentMin

/-- findClosestDistance (coordinate, polyline) from the source (lines
377-392): the running minimum starts at numeric_limits double max. -/
noncomputable def findClosestDistancePoly (coordinate : Coordinate)
    (coordinates : List Coordinate) : ℝ :=
  closestLoop coordinate dblMax coordinates

/-- The find_if accumulation of findClosestDistance (polyline, polyline)
from the source (lines 394-407). -/
noncomputable def closestPolyLoop (rhs : List Coordinate) : ℝ → List Coordinate → ℝ
  | currentMin, c :: rest =>
    closestPolyLoop rhs (min currentMin (findClosestDistancePoly c rhs)) rest
  | currentMin, [] => currentMin

/-- findClosestDistance (polyline, polyline) from the source (lines
394-407). -/
noncomputable def findClosestDistancePolyPoly (lhs rhs : List Coordinate) : ℝ :=
  closestPolyLoop rhs dblMax lhs

/-- Validity of a fixed coordinate (§3: latitude within ±90°, longitude
within ±180°, in fixed units). -/
def validCoord (c : Coordinate) : Prop :=
  |c.lon| ≤ 180000000 ∧ |c.lat| ≤ 90000000

instance (c : Coordinate) : Decidable (validCoord c) := by
  unfold validCoord; infer_instance

/-! Basic facts about the embedded numeric primitives. -/

lemma toInt32_eq_self (z : ℤ) (h1 : -2147483648 ≤ z) (h2 : z < 2147483648) :
    toInt32 z = z := by
  unfold toInt32
  omega

lemma earthRadius_pos : 0 < earthRadius := by
  unfold earthRadius; norm_num

lemma arctan_nonneg_of (x : ℝ) (h : 0 ≤ x) : 0 ≤ Real.arctan x := by
  rw [← Real.arctan_zero]
  exact Real.arctan_strictMono.monotone h

lemma arctan_nonpos_of (x : ℝ) (h : x ≤ 0) : Real.arctan x ≤ 0 := by
  rw [← Real.arctan_zero]
  exact Real.arctan_strictMono.monotone h

lemma arctan_pos_of (x : ℝ) (h : 0 < x) : 0 < Real.arctan x := by
  rw [← Real.arctan_zero]
  exact Real.arctan_strictMono h

lemma atan2_nonneg (y x : ℝ) (hy : 0 ≤ y) : 0 ≤ atan2 y x := by
  have hpi := Real.pi_pos
  unfold atan2
  split_ifs with h1 h2 h3 h4 h5 <;>
    first
      | exact arctan_nonneg_of _ (div_nonneg hy (le_of_lt h1))
      | linarith [Real.neg_pi_div_two_lt_arctan (y / x)]
      | linarith
      | exact le_refl 0

lemma atan2_le_pi_div_two (y x : ℝ) (hx : 0 ≤ x) : atan2 y x ≤ pi / 2 := by
  have hpi := Real.pi_pos
  unfold atan2
  split_ifs with h1 h2 h3 h4 h5
  · exact (Real.arctan_lt_pi_div_two (y / x)).le
  · linarith
  · linarith
  · linarith
  · linarith
  · linarith

lemma neg_pi_lt_atan2 (y x : ℝ) : -pi < atan2 y x := by
  have hpi := Real.pi_pos
  unfold atan2
  split_ifs with h1 h2 h3 h4 h5
  · have := Real.neg_pi_div_two_lt_arctan (y / x)
    linarith
  · have := Real.neg_pi_div_two_lt_arctan (y / x)
    linarith
  · have hyx : 0 < y / x := div_pos_of_neg_of_neg (lt_of_not_le h3) h2
    have := arctan_pos_of _ hyx
    linarith
  · linarith
  · linarith
  · linarith

lemma atan2_le_pi (y x : ℝ) : atan2 y x ≤ pi := by
  have hpi := Real.pi_pos
  unfold atan2
  split_ifs with h1 h2 h3 h4 h5
  · have := Real.arctan_lt_pi_div_two (y / x)
    linarith
  · have hyx : y / x ≤ 0 := div_nonpos_of_nonneg_of_nonpos h3 (le_of_lt h2)
    have := arctan_nonpos_of _ hyx
    linarith
  · have := Real.arctan_lt_pi_div_two (y / x)
    linarith
  · linarith
  · linarith
  · linarith

lemma charv_nonneg (a : ℝ) : 0 ≤ 2 * atan2 (Real.sqrt a) (Real.sqrt (1 - a)) := by
  have := atan2_nonneg (Real.sqrt a) (Real.sqrt (1 - a)) (Real.sqrt_nonneg a)
  linarith

lemma charv_le_pi (a : ℝ) : 2 * atan2 (Real.sqrt a) (Real.sqrt (1 - a)) ≤ pi := by
  have := atan2_le_pi_div_two (Real.sqrt a) (Real.sqrt (1 - a)) (Real.sqrt_nonneg (1 - a))
  linarith

lemma haversineDistance_nonneg (c1 c2 : Coordinate) : 0 ≤ haversineDistance c1 c2 := by
  unfold haversineDistance
  exact mul_nonneg earthRadius_pos.le (charv_nonneg _)

lemma haversineDistance_le_pi_radius (c1 c2 : Coordinate) :
    haversineDistance c1 c2 ≤ earthRadius * pi := by
  unfold haversineDistance
  exact mul_le_mul_of_nonneg_left (charv_le_pi _) earthRadius_pos.le

lemma haversineDistance_lt_dblMax (c1 c2 : Coordinate) :
    haversineDistance c1 c2 < dblMax := by
  have h1 := haversineDistance_le_pi_radius c1 c2
  have h2 : earthRadius * pi ≤ earthRadius * 4 :=
    mul_le_mul_of_nonneg_left Real.pi_le_four earthRadius_pos.le
  have h3 : earthRadius * 4 < dblMax := by
    unfold earthRadius dblMax
    norm_num
  linarith

lemma findClosestDistanceSeg_lt_dblMax (c a b : Coordinate) :
    findClosestDistanceSeg c a b < dblMax := by
  unfold findClosestDistanceSeg
  exact haversineDistance_lt_dblMax _ _

/-! Facts about the running-minimum loop of the point-to-polyline query. -/

lemma closestLoop_le_init (c : Coordinate) (m : ℝ) (l : List Coordinate) :
    closestLoop c m l ≤ m := by
  induction l generalizing m with
  | nil => simp [closestLoop]
  | cons a t ih =>
    cases t with
    | nil => simp [closestLoop]
    | cons b r =>
      calc closestLoop c m (a :: b :: r)
          = closestLoop c (min m (findClosestDistanceSeg c a b)) (b :: r) := by
            simp [closestLoop]
        _ ≤ min m (findClosestDistanceSeg c a b) := ih _
        _ ≤ m := min_le_left _ _

lemma closestLoop_le_seg (c : Coordinate) (m : ℝ) (l : List Coordinate) :
    ∀ p ∈ l.zip l.tail, closestLoop c m l ≤ findClosestDistanceSeg c p.1 p.2 := by
  induction l generalizing m with
  | nil => simp
  | cons a t ih =>
    cases t with
    | nil => simp
    | cons b r =>
      intro p hp
      simp only [List.tail_cons, List.zip_cons_cons, List.mem_cons] at hp
      have hstep : closestLoop c m (a :: b :: r) =
          closestLoop c (min m (findClosestDistanceSeg c a b)) (b :: r) := by
        simp [closestLoop]
      rcases hp with h | h
      · subst h
        calc closestLoop c m (a :: b :: r)
            = closestLoop c (min m (findClosestDistanceSeg c a b)) (b :: r) := hstep
          _ ≤ min m (findClosestDistanceSeg c a b) := closestLoop_le_init _ _ _
          _ ≤ findClosestDistanceSeg c a b := min_le_right _ _
      · rw [hstep]
        exact ih _ p (by simpa using h)

lemma closestLoop_eq_init_or_seg (c : Coordinate) (m : ℝ) (l : List Coordinate) :
    closestLoop c m l = m ∨
      ∃ p ∈ l.zip l.tail, closestLoop c m l = findClosestDistanceSeg c p.1 p.2 := by
  induction l generalizing m with
  | nil => left; simp [closestLoop]
  | cons a t ih =>
    cases t with
    | nil => left; simp [closestLoop]
    | cons b r =>
      have hstep : closestLoop c m (a :: b :: r) =
          closestLoop c (min m (findClosestDistanceSeg c a b)) (b :: r) := by
        simp [closestLoop]
      rcases ih (min m (findClosestDistanceSeg c a b)) with he | ⟨p, hp, he⟩
      · rcases min_cases m (findClosestDistanceSeg c a b) with ⟨hm, _⟩ | ⟨hm, _⟩
        · left
          rw [hstep, he, hm]
        · right
          refine ⟨(a, b), by simp, ?_⟩
          rw [hstep, he, hm]
      · right
        refine ⟨p, ?_, by rw [hstep]; exact he⟩
        simp only [List.tail_cons, List.zip_cons_cons, List.mem_cons]
        right
        simpa using hp

/-! Facts about the two-point least-squares regression. -/

lemma lsr_two_of_eq_lon (p q : Coordinate) (h : p.lon = q.lon) :
    leastSquareRegression [p, q] = (p, q) := by
  unfold leastSquareRegression
  simp only [List.foldl_cons, List.foldl_nil, List.length_cons, List.length_nil,
    List.headI]
  rw [if_pos]
  · rfl
  · rw [qabs_eq, h]
    unfold fixedToQ epsQ
    have hz : ((0 + 1 + 1 : ℕ) : ℚ) * (0 + (q.lon : ℚ) / 1000000 * ((q.lon : ℚ) / 1000000) +
        (q.lon : ℚ) / 1000000 * ((q.lon : ℚ) / 1000000)) -
        (0 + (q.lon : ℚ) / 1000000 + (q.lon : ℚ) / 1000000) *
          (0 + (q.lon : ℚ) / 1000000 + (q.lon : ℚ) / 1000000) = 0 := by
      push_cast
      ring
    rw [hz]
    norm_num

lemma lsr_two_divisor_large (p q : Coordinate) (h : p.lon ≠ q.lon) :
    ¬qabs (((0 + 1 + 1 : ℕ) : ℚ) * (0 + fixedToQ p.lon * fixedToQ p.lon +
        fixedToQ q.lon * fixedToQ q.lon) -
      (0 + fixedToQ p.lon + fixedToQ q.lon) * (0 + fixedToQ p.lon + fixedToQ q.lon)) < epsQ := by
  rw [qabs_eq]
  unfold fixedToQ epsQ
  rw [not_lt]
  have hd : ((0 + 1 + 1 : ℕ) : ℚ) * (0 + (p.lon : ℚ) / 1000000 * ((p.lon : ℚ) / 1000000) +
      (q.lon : ℚ) / 1000000 * ((q.lon : ℚ) / 1000000)) -
      (0 + (p.lon : ℚ) / 1000000 + (q.lon : ℚ) / 1000000) *
        (0 + (p.lon : ℚ) / 1000000 + (q.lon : ℚ) / 1000000) =
      (((p.lon - q.lon : ℤ) : ℚ) / 1000000) ^ 2 := by
    push_cast
    ring
  rw [hd, abs_of_nonneg (sq_nonneg _)]
  have h1 : (1 : ℚ) ≤ ((p.lon - q.lon : ℤ) : ℚ) ^ 2 := by
    have h0 : (1 : ℤ) ≤ |p.lon - q.lon| := Int.one_le_abs (sub_ne_zero.mpr h)
    have h0q : (1 : ℚ) ≤ |((p.lon - q.lon : ℤ) : ℚ)| := by
      rw [← Int.cast_abs]
      exact_mod_cast h0
    nlinarith [sq_abs ((p.lon - q.lon : ℤ) : ℚ)]
  have heq : (((p.lon - q.lon : ℤ) : ℚ) / 1000000) ^ 2 =
      ((p.lon - q.lon : ℤ) : ℚ) ^ 2 / 1000000000000 := by ring
  rw [heq]
  have hc : (1 : ℚ) / 2 ^ 52 ≤ 1 / 1000000000000 := by norm_num
  linarith

lemma lsr_two_of_ne_lon (p q : Coordinate) (h : p.lon ≠ q.lon) :
    (leastSquareRegression [p, q]).1.lon = min p.lon q.lon - 10 := by
  unfold leastSquareRegression
  simp only [List.foldl_cons, List.foldl_nil, List.length_cons, List.length_nil,
    List.headI]
  rw [if_neg (lsr_two_divisor_large p q h)]
  have hmin : qmin (qmin (fixedToQ p.lon) (fixedToQ p.lon)) (fixedToQ q.lon) =
      ((min p.lon q.lon : ℤ) : ℚ) / 1000000 := by
    rw [qmin_eq, qmin_eq, min_self]
    unfold fixedToQ
    rw [min_div_div_right (by norm_num : (0:ℚ) ≤ 1000000)]
    rw [Int.cast_min]
  have harg : (((min p.lon q.lon : ℤ) : ℚ) / 1000000 - 1 / 100000) * 1000000 =
      ((min p.lon q.lon - 10 : ℤ) : ℚ) := by
    push_cast
    ring
  show round ((qmin (qmin (fixedToQ p.lon) (fixedToQ p.lon)) (fixedToQ q.lon) - 1 / 100000) *
      1000000) = min p.lon q.lon - 10
  rw [hmin, harg, round_intCast]

/-- C1 (amended): leastSquareRegression on exactly two points returns those
two points unchanged precisely when the two points have the same fixed
longitude (so the degenerate/vertical fallback fires); with distinct
longitudes the non-degenerate path produces synthetic endpoints extended
0.00001 degrees beyond the observed longitude range, not the input
points. -/
theorem leastSquareRegression_two_points_iff (p q : Coordinate) :
    leastSquareRegression [p, q] = (p, q) ↔ p.lon = q.lon := by
  constructor
  · intro he
    by_contra hne
    have h1 := lsr_two_of_ne_lon p q hne
    rw [he] at h1
    have h2 : min p.lon q.lon ≤ p.lon := min_le_left _ _
    have h3 : (p, q).1.lon = p.lon := rfl
    rw [h3] at h1
    omega
  · exact lsr_two_of_eq_lon p q

/-- C1 (counterexample): on the two points (lon 0, lat 0) and
(lon 1 degree, lat 0) — distinct longitudes — leastSquareRegression does
not return the two points unchanged (it returns endpoints extended past
the longitude range). -/
theorem leastSquareRegression_two_points_counterexample :
    leastSquareRegression [⟨0, 0⟩, ⟨1000000, 0⟩] ≠
      ((⟨0, 0⟩ : Coordinate), (⟨1000000, 0⟩ : Coordinate)) := by
  with_unfolding_all decide

/-- C9: the point-to-polyline closest-distance query on a polyline with
fewer than two points returns the numeric_limits double max sentinel (no
adjacent pair exists), and the polyline-to-polyline query with an empty
first polyline returns the same sentinel. -/
theorem findClosestDistance_short_input_sentinel (c : Coordinate)
    (l rhs : List Coordinate) (h : l.length < 2) :
    findClosestDistancePoly c l = dblMax ∧
      findClosestDistancePolyPoly [] rhs = dblMax := by
  constructor
  · rcases l with _ | ⟨a, _ | ⟨b, r⟩⟩
    · simp [findClosestDistancePoly, closestLoop]
    · simp [findClosestDistancePoly, closestLoop]
    · exfalso
      simp only [List.length_cons] at h
      omega
  · simp [findClosestDistancePolyPoly, closestPolyLoop]

theorem findClosestDistance_short_input_sentinel_witness :
    (([] : List Coordinate).length < 2) ∧
      (findClosestDistancePoly ⟨0, 0⟩ [] = dblMax ∧
        findClosestDistancePolyPoly [] [⟨0, 0⟩] = dblMax) :=
  ⟨by decide, findClosestDistance_short_input_sentinel ⟨0, 0⟩ [] [⟨0, 0⟩] (by decide)⟩

/-- C8: on a polyline with at least two points, the point-to-polyline
closest-distance query returns the minimum over every adjacent pair of the
point-to-segment closest distance: it is a lower bound of every adjacent
pair's segment distance and is attained by one of them. -/
theorem findClosestDistancePoly_min_adjacent (c : Coordinate) (l : List Coordinate)
    (h : 2 ≤ l.length) :
    (∀ p ∈ l.zip l.tail,
        findClosestDistancePoly c l ≤ findClosestDistanceSeg c p.1 p.2) ∧
      ∃ p ∈ l.zip l.tail,
        findClosestDistancePoly c l = findClosestDistanceSeg c p.1 p.2 := by
  rcases l with _ | ⟨a, _ | ⟨b, r⟩⟩
  · simp at h
  · simp at h
  · simp only [findClosestDistancePoly]
    refine ⟨closestLoop_le_seg c dblMax _, ?_⟩
    rcases closestLoop_eq_init_or_seg c dblMax (a :: b :: r) with he | hex
    · exfalso
      have h1 : closestLoop c dblMax (a :: b :: r) ≤ findClosestDistanceSeg c a b :=
        closestLoop_le_seg c dblMax _ (a, b) (by simp)
      have h2 := findClosestDistanceSeg_lt_dblMax c a b
      rw [he] at h1
      linarith
    · exact hex

theorem findClosestDistancePoly_min_adjacent_witness :
    2 ≤ ([⟨0, 0⟩, ⟨1000000, 0⟩] : List Coordinate).length ∧
      ((∀ p ∈ ([⟨0, 0⟩, ⟨1000000, 0⟩] : List Coordinate).zip
            ([(⟨0, 0⟩ : Coordinate), ⟨1000000, 0⟩] : List Coordinate).tail,
          findClosestDistancePoly ⟨0, 500000⟩ [⟨0, 0⟩, ⟨1000000, 0⟩] ≤
            findClosestDistanceSeg ⟨0, 500000⟩ p.1 p.2) ∧
        ∃ p ∈ ([⟨0, 0⟩, ⟨1000000, 0⟩] : List Coordinate).zip
            ([(⟨0, 0⟩ : Coordinate), ⟨1000000, 0⟩] : List Coordinate).tail,
          findClosestDistancePoly ⟨0, 500000⟩ [⟨0, 0⟩, ⟨1000000, 0⟩] =
            findClosestDistanceSeg ⟨0, 500000⟩ p.1 p.2) :=
  ⟨by decide, findClosestDistancePoly_min_adjacent ⟨0, 500000⟩ _ (by decide)⟩

/-- C10: for coordinates within the valid fixed-point range, the uint64
computation of squaredEuclideanDistance returns exactly the mathematical
integer (delta lon)^2 + (delta lat)^2: the sign extension of the negative
32-bit deltas cancels under squaring mod 2^64 and the sum does not wrap. -/
theorem squaredEuclideanDistance_exact (lhs rhs : Coordinate)
    (h1 : |lhs.lon| ≤ 180000000) (h2 : |lhs.lat| ≤ 90000000)
    (h3 : |rhs.lon| ≤ 180000000) (h4 : |rhs.lat| ≤ 90000000) :
    squaredEuclideanDistance lhs rhs =
      (lhs.lon - rhs.lon) ^ 2 + (lhs.lat - rhs.lat) ^ 2 := by
  rw [abs_le] at h1 h2 h3 h4
  have e1 : toInt32 (lhs.lon - rhs.lon) = lhs.lon - rhs.lon :=
    toInt32_eq_self _ (by omega) (by omega)
  have e2 : toInt32 (lhs.lat - rhs.lat) = lhs.lat - rhs.lat :=
    toInt32_eq_self _ (by omega) (by omega)
  unfold squaredEuclideanDistance toUInt64
  rw [e1, e2]
  set d1 := lhs.lon - rhs.lon with hd1
  set d2 := lhs.lat - rhs.lat with hd2
  set N : ℤ := 18446744073709551616 with hN
  have m1 : d1 % N ≡ d1 [ZMOD N] := Int.emod_emod_of_dvd d1 dvd_rfl
  have m2 : d2 % N ≡ d2 [ZMOD N] := Int.emod_emod_of_dvd d2 dvd_rfl
  have key : (d1 % N * (d1 % N) + d2 % N * (d2 % N)) % N = (d1 * d1 + d2 * d2) % N :=
    (m1.mul m1).add (m2.mul m2)
  rw [key]
  have hb1 : d1 * d1 ≤ 360000000 * 360000000 := by nlinarith
  have hb2 : d2 * d2 ≤ 180000000 * 180000000 := by nlinarith
  have hnn : 0 ≤ d1 * d1 + d2 * d2 := by nlinarith [mul_self_nonneg d1, mul_self_nonneg d2]
  have hlt : d1 * d1 + d2 * d2 < N := by rw [hN]; nlinarith
  rw [Int.emod_eq_of_lt hnn hlt]
  ring

theorem squaredEuclideanDistance_exact_witness :
    (|(3 : ℤ)| ≤ 180000000 ∧ |(4 : ℤ)| ≤ 90000000 ∧
        |(0 : ℤ)| ≤ 180000000 ∧ |(0 : ℤ)| ≤ 90000000) ∧
      squaredEuclideanDistance ⟨3, 4⟩ ⟨0, 0⟩ = ((3 : ℤ) - 0) ^ 2 + ((4 : ℤ) - 0) ^ 2 :=
  ⟨by decide,
    squaredEuclideanDistance_exact ⟨3, 4⟩ ⟨0, 0⟩ (by decide) (by decide) (by decide) (by decide)⟩

/-! Facts about the wraparound normalization loops. -/

lemma wrapAdd360_of_neg (x : ℝ) (h : x < 0) : wrapAdd360 x = wrapAdd360 (x + 360) := by
  conv_lhs => unfold wrapAdd360
  rw [dif_pos h]

lemma wrapAdd360_of_nonneg (x : ℝ) (h : 0 ≤ x) : wrapAdd360 x = x := by
  conv_lhs => unfold wrapAdd360
  rw [dif_neg (not_lt.mpr h)]

lemma wrapSub360_of_ge (x : ℝ) (h : 360 ≤ x) : wrapSub360 x = wrapSub360 (x - 360) := by
  conv_lhs => unfold wrapSub360
  rw [dif_pos h]

lemma wrapSub360_of_lt (x : ℝ) (h : x < 360) : wrapSub360 x = x := by
  conv_lhs => unfold wrapSub360
  rw [dif_neg (not_le.mpr h)]

lemma wrapAdd360_props : ∀ (n : ℕ) (x : ℝ), (⌈-x / 360⌉).toNat ≤ n →
    0 ≤ wrapAdd360 x ∧ (x < 360 → wrapAdd360 x < 360) := by
  intro n
  induction n with
  | zero =>
    intro x hx
    have hx0 : 0 ≤ x := by
      by_contra hneg
      push_neg at hneg
      have hpos : 0 < -x / 360 := div_pos (by linarith) (by norm_num)
      have h1 : (1 : ℤ) ≤ ⌈-x / 360⌉ := Int.ceil_pos.mpr hpos
      omega
    rw [wrapAdd360_of_nonneg x hx0]
    exact ⟨hx0, fun h => h⟩
  | succ n ih =>
    intro x hx
    by_cases hneg : x < 0
    · have hstep : -(x + 360) / 360 = -x / 360 - (1 : ℤ) := by push_cast; ring
      have hceil : ⌈-(x + 360) / 360⌉ = ⌈-x / 360⌉ - 1 := by
        rw [hstep, Int.ceil_sub_int]
      have hone : (1 : ℤ) ≤ ⌈-x / 360⌉ :=
        Int.ceil_pos.mpr (div_pos (by linarith) (by norm_num))
      have hm : (⌈-(x + 360) / 360⌉).toNat ≤ n := by
        rw [hceil]; omega
      have hrec := ih (x + 360) hm
      rw [wrapAdd360_of_neg x hneg]
      exact ⟨hrec.1, fun _ => hrec.2 (by linarith)⟩
    · push_neg at hneg
      rw [wrapAdd360_of_nonneg x hneg]
      exact ⟨hneg, fun h => h⟩

lemma wrapSub360_props : ∀ (n : ℕ) (x : ℝ), (⌊x / 360⌋).toNat ≤ n →
    wrapSub360 x < 360 ∧ (0 ≤ x → 0 ≤ wrapSub360 x) := by
  intro n
  induction n with
  | zero =>
    intro x hx
    have hlt : x < 360 := by
      by_contra hge
      push_neg at hge
      have h1 : (1 : ℤ) ≤ ⌊x / 360⌋ := by
        rw [Int.le_floor]
        rw [le_div_iff₀ (by norm_num : (0:ℝ) < 360)]
        push_cast
        linarith
      omega
    rw [wrapSub360_of_lt x hlt]
    exact ⟨hlt, fun h => h⟩
  | succ n ih =>
    intro x hx
    by_cases hge : 360 ≤ x
    · have hstep : (x - 360) / 360 = x / 360 - (1 : ℤ) := by push_cast; ring
      have hfloor : ⌊(x - 360) / 360⌋ = ⌊x / 360⌋ - 1 := by
        rw [hstep, Int.floor_sub_int]
      have hone : (1 : ℤ) ≤ ⌊x / 360⌋ := by
        rw [Int.le_floor]
        rw [le_div_iff₀ (by norm_num : (0:ℝ) < 360)]
        push_cast
        linarith
      have hm : (⌊(x - 360) / 360⌋).toNat ≤ n := by
        rw [hfloor]; omega
      have hrec := ih (x - 360) hm
      rw [wrapSub360_of_ge x hge]
      exact ⟨hrec.1, fun _ => hrec.2 (by linarith)⟩
    · push_neg at hge
      rw [wrapSub360_of_lt x hge]
      exact ⟨hge, fun h => h⟩

lemma wrapAdd360_nonneg (x : ℝ) : 0 ≤ wrapAdd360 x :=
  (wrapAdd360_props _ x le_rfl).1

lemma wrapAdd360_lt_of_lt (x : ℝ) (h : x < 360) : wrapAdd360 x < 360 :=
  (wrapAdd360_props _ x le_rfl).2 h

lemma wrapSub360_lt (x : ℝ) : wrapSub360 x < 360 :=
  (wrapSub360_props _ x le_rfl).1

lemma wrapSub360_nonneg (x : ℝ) (h : 0 ≤ x) : 0 ≤ wrapSub360 x :=
  (wrapSub360_props _ x le_rfl).2 h

lemma wrapNorm_mem (x : ℝ) :
    0 ≤ wrapSub360 (wrapAdd360 x) ∧ wrapSub360 (wrapAdd360 x) < 360 :=
  ⟨wrapSub360_nonneg _ (wrapAdd360_nonneg x), wrapSub360_lt _⟩

/-- C5: for every coordinate pair the bearing lies in [0, 360) — in
particular bearing(A, A) does — and the two iterative wraparound loops
normalize every real input (so every atan2 result) into [0, 360),
terminating on all of them (the loop functions are total). -/
theorem bearing_range (first second : Coordinate) :
    (0 ≤ bearing first second ∧ bearing first second < 360) ∧
      ∀ x : ℝ, 0 ≤ wrapSub360 (wrapAdd360 x) ∧ wrapSub360 (wrapAdd360 x) < 360 := by
  constructor
  · unfold bearing
    exact wrapNorm_mem _
  · exact wrapNorm_mem

/-- C3: computeAngle returns exactly 180 when either outer point coincides
with the middle point, and its result always lies in [0, 360) (the atan2
difference lies in (-360, 360) degrees and the add-360 loop lifts it into
the interval). -/
theorem computeAngle_degenerate_and_range (first second third : Coordinate) :
    computeAngle first first third = 180 ∧
      computeAngle first second second = 180 ∧
      0 ≤ computeAngle first second third ∧
      computeAngle first second third < 360 := by
  refine ⟨?_, ?_, ?_, ?_⟩
  · unfold computeAngle
    rw [if_pos (Or.inl rfl)]
  · unfold computeAngle
    rw [if_pos (Or.inr rfl)]
  · unfold computeAngle
    split_ifs with h
    · norm_num
    · exact wrapAdd360_nonneg _
  · unfold computeAngle
    split_ifs with h
    · norm_num
    · apply wrapAdd360_lt_of_lt
      rw [div_lt_iff₀ Real.pi_pos]
      have h1 := atan2_le_pi
        (latToY (fixedToR third.lat) - latToY (fixedToR second.lat))
        (fixedToR (third.lon - second.lon))
      have h2 := neg_pi_lt_atan2
        (latToY (fixedToR first.lat) - latToY (fixedToR second.lat))
        (fixedToR (first.lon - second.lon))
      linarith

/-! Facts about the distance metrics (claim C6). -/

lemma atan2_zero_one : atan2 0 1 = 0 := by
  unfold atan2
  rw [if_pos one_pos]
  rw [zero_div, Real.arctan_zero]

lemma haversineDistance_self (A : Coordinate) : haversineDistance A A = 0 := by
  simp only [haversineDistance]
  rw [sub_self, sub_self, zero_div, Real.sin_zero]
  norm_num [Real.sqrt_one, atan2_zero_one]

lemma greatCircleDistance_self (A : Coordinate) : greatCircleDistance A A = 0 := by
  simp only [greatCircleDistance]
  rw [sub_self, sub_self, zero_mul]
  norm_num

lemma haversineDistance_symm (A B : Coordinate) :
    haversineDistance A B = haversineDistance B A := by
  simp only [haversineDistance]
  have key : ∀ u v s t : ℝ,
      Real.sin ((v - u) / 2) ^ 2 + Real.cos v * Real.cos u * Real.sin ((t - s) / 2) ^ 2 =
        Real.sin ((u - v) / 2) ^ 2 + Real.cos u * Real.cos v * Real.sin ((s - t) / 2) ^ 2 := by
    intro u v s t
    have e1 : (v - u) / 2 = -((u - v) / 2) := by ring
    have e2 : (t - s) / 2 = -((s - t) / 2) := by ring
    rw [e1, e2, Real.sin_neg, Real.sin_neg]
    ring
  rw [key ((A.lat : ℝ) / 1000000 * degreeToRad) ((B.lat : ℝ) / 1000000 * degreeToRad)
    ((A.lon : ℝ) / 1000000 * degreeToRad) ((B.lon : ℝ) / 1000000 * degreeToRad)]

lemma greatCircleDistance_symm (A B : Coordinate) :
    greatCircleDistance A B = greatCircleDistance B A := by
  simp only [greatCircleDistance]
  have key : ∀ l1 l2 t1 t2 : ℝ,
      ((l1 - l2) * Real.cos ((t2 + t1) / 2)) ^ 2 + (t1 - t2) ^ 2 =
        ((l2 - l1) * Real.cos ((t1 + t2) / 2)) ^ 2 + (t2 - t1) ^ 2 := by
    intro l1 l2 t1 t2
    rw [show (t2 + t1) / 2 = (t1 + t2) / 2 by ring]
    ring
  rw [key ((A.lon : ℝ) / 1000000 * degreeToRad) ((B.lon : ℝ) / 1000000 * degreeToRad)
    ((A.lat : ℝ) / 1000000 * degreeToRad) ((B.lat : ℝ) / 1000000 * degreeToRad)]

lemma toInt32_neg (z : ℤ) :
    toInt32 (-z) = -toInt32 z ∨
      (toInt32 (-z) = -2147483648 ∧ toInt32 z = -2147483648) := by
  unfold toInt32
  omega

lemma usq_toInt32_neg (z : ℤ) :
    toUInt64 (toInt32 (-z)) * toUInt64 (toInt32 (-z)) ≡
      toUInt64 (toInt32 z) * toUInt64 (toInt32 z) [ZMOD 18446744073709551616] := by
  rcases toInt32_neg z with h | ⟨h1, h2⟩
  · rw [h]
    unfold toUInt64
    have m1 : -toInt32 z % 18446744073709551616 ≡ -toInt32 z [ZMOD 18446744073709551616] :=
      Int.emod_emod_of_dvd _ dvd_rfl
    have m2 : toInt32 z % 18446744073709551616 ≡ toInt32 z [ZMOD 18446744073709551616] :=
      Int.emod_emod_of_dvd _ dvd_rfl
    have step1 := m1.mul m1
    rw [neg_mul_neg] at step1
    exact step1.trans (m2.mul m2).symm
  · rw [h1, h2]

lemma squaredEuclideanDistance_symm (A B : Coordinate) :
    squaredEuclideanDistance A B = squaredEuclideanDistance B A := by
  unfold squaredEuclideanDistance
  rw [show B.lon - A.lon = -(A.lon - B.lon) by ring,
    show B.lat - A.lat = -(A.lat - B.lat) by ring]
  exact ((usq_toInt32_neg (A.lon - B.lon)).add (usq_toInt32_neg (A.lat - B.lat))).symm

lemma atan2_sqrt_eq_zero (a : ℝ) (ha : 0 ≤ a)
    (h : atan2 (Real.sqrt a) (Real.sqrt (1 - a)) = 0) : a = 0 := by
  have hya := Real.sqrt_nonneg a
  have hxa := Real.sqrt_nonneg (1 - a)
  have hpi := Real.pi_pos
  unfold atan2 at h
  split_ifs at h with h1 h2 h3 h4 h5 <;>
    first
      | (rcases div_eq_zero_iff.mp (Real.arctan_eq_zero_iff.mp h) with h' | h'
         · exact (Real.sqrt_eq_zero ha).mp h'
         · exact absurd h' (ne_of_gt h1))
      | linarith
      | exact (Real.sqrt_eq_zero ha).mp (le_antisymm (not_lt.mp h4) hya)
      | exact (Real.sqrt_eq_zero ha).mp (le_antisymm (not_lt.mp h3) hya)

lemma rad_abs_lt_pi_div_two (z : ℤ) (h : |z| < 90000000) :
    -(pi / 2) < (z : ℝ) / 1000000 * degreeToRad ∧
      (z : ℝ) / 1000000 * degreeToRad < pi / 2 := by
  unfold degreeToRad
  have hpi := Real.pi_pos
  have hzr : |(z : ℝ)| < 90000000 := by
    have hcast : ((|z| : ℤ) : ℝ) < 90000000 := by exact_mod_cast h
    rwa [Int.cast_abs] at hcast
  rw [abs_lt] at hzr
  have h1 : 0 < ((z : ℝ) + 90000000) * pi := mul_pos (by linarith) hpi
  have h2 : 0 < (90000000 - (z : ℝ)) * pi := mul_pos (by linarith) hpi
  constructor <;> nlinarith

lemma rad_half_abs_lt_pi (z : ℤ) (h : |z| < 360000000) :
    -pi < (z : ℝ) / 1000000 * degreeToRad / 2 ∧
      (z : ℝ) / 1000000 * degreeToRad / 2 < pi := by
  unfold degreeToRad
  have hpi := Real.pi_pos
  have hzr : |(z : ℝ)| < 360000000 := by
    have hcast : ((|z| : ℤ) : ℝ) < 360000000 := by exact_mod_cast h
    rwa [Int.cast_abs] at hcast
  rw [abs_lt] at hzr
  have h1 : 0 < ((z : ℝ) + 360000000) * pi := mul_pos (by linarith) hpi
  have h2 : 0 < (360000000 - (z : ℝ)) * pi := mul_pos (by linarith) hpi
  constructor <;> nlinarith

lemma degreeToRad_ne_zero : degreeToRad ≠ 0 := by
  unfold degreeToRad
  positivity

lemma haversine_eq_zero_imp (A B : Coordinate)
    (hA : |A.lat| < 90000000) (hB : |B.lat| < 90000000)
    (hlon : |A.lon - B.lon| < 360000000)
    (h : haversineDistance A B = 0) : A = B := by
  simp only [haversineDistance] at h
  set t1 := (A.lat : ℝ) / 1000000 * degreeToRad with ht1
  set t2 := (B.lat : ℝ) / 1000000 * degreeToRad with ht2
  set l1 := (A.lon : ℝ) / 1000000 * degreeToRad with hl1
  set l2 := (B.lon : ℝ) / 1000000 * degreeToRad with hl2
  have hcos1 : 0 < Real.cos t1 := by
    refine Real.cos_pos_of_mem_Ioo ⟨?_, ?_⟩
    · exact (rad_abs_lt_pi_div_two A.lat hA).1
    · exact (rad_abs_lt_pi_div_two A.lat hA).2
  have hcos2 : 0 < Real.cos t2 := by
    refine Real.cos_pos_of_mem_Ioo ⟨?_, ?_⟩
    · exact (rad_abs_lt_pi_div_two B.lat hB).1
    · exact (rad_abs_lt_pi_div_two B.lat hB).2
  set a := Real.sin ((t1 - t2) / 2) ^ 2 +
    Real.cos t1 * Real.cos t2 * Real.sin ((l1 - l2) / 2) ^ 2 with ha
  have hs1 : 0 ≤ Real.sin ((t1 - t2) / 2) ^ 2 := sq_nonneg _
  have hs2 : 0 ≤ Real.cos t1 * Real.cos t2 * Real.sin ((l1 - l2) / 2) ^ 2 :=
    mul_nonneg (mul_nonneg hcos1.le hcos2.le) (sq_nonneg _)
  have ha_nonneg : 0 ≤ a := by rw [ha]; linarith
  have hcharv : atan2 (Real.sqrt a) (Real.sqrt (1 - a)) = 0 := by
    rcases mul_eq_zero.mp h with h' | h'
    · exact absurd h' (ne_of_gt earthRadius_pos)
    · rcases mul_eq_zero.mp h' with h'' | h''
      · norm_num at h''
      · exact h''
  have ha0 : a = 0 := atan2_sqrt_eq_zero a ha_nonneg hcharv
  rw [ha] at ha0
  have e1 : Real.sin ((t1 - t2) / 2) ^ 2 = 0 := by linarith
  have e2 : Real.cos t1 * Real.cos t2 * Real.sin ((l1 - l2) / 2) ^ 2 = 0 := by linarith
  -- latitude equality
  have hsin1 : Real.sin ((t1 - t2) / 2) = 0 := by
    exact (pow_eq_zero_iff two_ne_zero).mp e1
  have hdlat : (t1 - t2) / 2 = ((A.lat - B.lat : ℤ) : ℝ) / 1000000 * degreeToRad / 2 := by
    rw [ht1, ht2]
    push_cast
    ring
  have hlatbound : |A.lat - B.lat| < 360000000 := by
    rw [abs_lt] at hA hB ⊢
    omega
  have hzlat := rad_half_abs_lt_pi (A.lat - B.lat) hlatbound
  rw [hdlat] at hsin1
  have hlat0 := (Real.sin_eq_zero_iff_of_lt_of_lt hzlat.1 hzlat.2).mp hsin1
  have hlat_eq : A.lat = B.lat := by
    have h4 : ((A.lat - B.lat : ℤ) : ℝ) / 1000000 * degreeToRad / 2 =
        ((A.lat - B.lat : ℤ) : ℝ) * degreeToRad / 2000000 := by ring
    rw [h4] at hlat0
    have hc : ((A.lat - B.lat : ℤ) : ℝ) * degreeToRad = 0 :=
      (div_eq_zero_iff.mp hlat0).resolve_right (by norm_num)
    rcases mul_eq_zero.mp hc with h' | h'
    · have : A.lat - B.lat = (0 : ℤ) := by exact_mod_cast h'
      omega
    · exact absurd h' degreeToRad_ne_zero
  -- longitude equality
  have hsin2 : Real.sin ((l1 - l2) / 2) ^ 2 = 0 := by
    rcases mul_eq_zero.mp e2 with h' | h'
    · rcases mul_eq_zero.mp h' with h'' | h''
      · exact absurd h'' (ne_of_gt hcos1)
      · exact absurd h'' (ne_of_gt hcos2)
    · exact h'
  have hsin2' : Real.sin ((l1 - l2) / 2) = 0 := (pow_eq_zero_iff two_ne_zero).mp hsin2
  have hdlon : (l1 - l2) / 2 = ((A.lon - B.lon : ℤ) : ℝ) / 1000000 * degreeToRad / 2 := by
    rw [hl1, hl2]
    push_cast
    ring
  have hzlon := rad_half_abs_lt_pi (A.lon - B.lon) hlon
  rw [hdlon] at hsin2'
  have hlon0 := (Real.sin_eq_zero_iff_of_lt_of_lt hzlon.1 hzlon.2).mp hsin2'
  have hlon_eq : A.lon = B.lon := by
    have h4 : ((A.lon - B.lon : ℤ) : ℝ) / 1000000 * degreeToRad / 2 =
        ((A.lon - B.lon : ℤ) : ℝ) * degreeToRad / 2000000 := by ring
    rw [h4] at hlon0
    have hc : ((A.lon - B.lon : ℤ) : ℝ) * degreeToRad = 0 :=
      (div_eq_zero_iff.mp hlon0).resolve_right (by norm_num)
    rcases mul_eq_zero.mp hc with h' | h'
    · have : A.lon - B.lon = (0 : ℤ) := by exact_mod_cast h'
      omega
    · exact absurd h' degreeToRad_ne_zero
  cases A with
  | mk alon alat =>
    cases B with
    | mk blon blat =>
      simp only [Coordinate.mk.injEq]
      exact ⟨hlon_eq, hlat_eq⟩

/-- C6 (counterexample): the two distinct valid coordinates (lon 180°,
lat 0) and (lon −180°, lat 0) encode the same physical point (antimeridian
wrap), and haversineDistance between them is exactly 0 although they are
not equal — so "zero only if the coordinates are identical" fails. -/
theorem haversine_zero_counterexample :
    haversineDistance ⟨180000000, 0⟩ ⟨-180000000, 0⟩ = 0 ∧
      (⟨180000000, 0⟩ : Coordinate) ≠ ⟨-180000000, 0⟩ := by
  constructor
  · simp only [haversineDistance]
    have hz0 : ((0 : ℤ) : ℝ) / 1000000 * degreeToRad = 0 := by push_cast; ring
    have harg : (((180000000 : ℤ) : ℝ) / 1000000 * degreeToRad -
        ((-180000000 : ℤ) : ℝ) / 1000000 * degreeToRad) / 2 = pi := by
      unfold degreeToRad
      push_cast
      ring
    rw [hz0, harg]
    norm_num [Real.sin_pi, Real.sqrt_one, atan2_zero_one]
  · decide

/-- C6 (amended): haversineDistance and greatCircleDistance vanish on equal
arguments; haversineDistance, greatCircleDistance and
squaredEuclideanDistance are symmetric — all unconditionally; and
haversineDistance(A, B) = 0 implies A = B provided both latitudes are
strictly inside ±90° and the fixed longitudes do not differ by a full 360°
turn (at the poles and across the antimeridian wrap distinct coordinate
encodings of the same physical point have haversine distance 0). -/
theorem distance_metric_properties :
    (∀ A : Coordinate, haversineDistance A A = 0 ∧ greatCircleDistance A A = 0) ∧
      (∀ A B : Coordinate,
        haversineDistance A B = haversineDistance B A ∧
        greatCircleDistance A B = greatCircleDistance B A ∧
        squaredEuclideanDistance A B = squaredEuclideanDistance B A) ∧
      (∀ A B : Coordinate, |A.lat| < 90000000 → |B.lat| < 90000000 →
        |A.lon - B.lon| < 360000000 → haversineDistance A B = 0 → A = B) :=
  ⟨fun A => ⟨haversineDistance_self A, greatCircleDistance_self A⟩,
    fun A B => ⟨haversineDistance_symm A B, greatCircleDistance_symm A B,
      squaredEuclideanDistance_symm A B⟩,
    fun A B hA hB hlon h => haversine_eq_zero_imp A B hA hB hlon h⟩

theorem distance_metric_properties_witness :
    (|(⟨1000000, 2000000⟩ : Coordinate).lat| < 90000000 ∧
        |(⟨0, 0⟩ : Coordinate).lat| < 90000000 ∧
        |(⟨1000000, 2000000⟩ : Coordinate).lon - (⟨0, 0⟩ : Coordinate).lon| < 360000000) ∧
      (haversineDistance ⟨1000000, 2000000⟩ ⟨1000000, 2000000⟩ = 0 ∧
        greatCircleDistance ⟨1000000, 2000000⟩ ⟨1000000, 2000000⟩ = 0) ∧
      (haversineDistance ⟨1000000, 2000000⟩ ⟨0, 0⟩ =
          haversineDistance ⟨0, 0⟩ ⟨1000000, 2000000⟩ ∧
        greatCircleDistance ⟨1000000, 2000000⟩ ⟨0, 0⟩ =
          greatCircleDistance ⟨0, 0⟩ ⟨1000000, 2000000⟩ ∧
        squaredEuclideanDistance ⟨1000000, 2000000⟩ ⟨0, 0⟩ =
          squaredEuclideanDistance ⟨0, 0⟩ ⟨1000000, 2000000⟩) ∧
      (haversineDistance ⟨1000000, 2000000⟩ ⟨0, 0⟩ = 0 →
        (⟨1000000, 2000000⟩ : Coordinate) = ⟨0, 0⟩) :=
  ⟨⟨by decide, by decide, by decide⟩,
    distance_metric_properties.1 ⟨1000000, 2000000⟩,
    distance_metric_properties.2.1 ⟨1000000, 2000000⟩ ⟨0, 0⟩,
    distance_metric_properties.2.2 ⟨1000000, 2000000⟩ ⟨0, 0⟩
      (by decide) (by decide) (by decide)⟩

/-! Facts about the two point-to-segment distance pipelines (claim C2). -/

lemma greatCircleDistance_nonneg (c1 c2 : Coordinate) : 0 ≤ greatCircleDistance c1 c2 := by
  unfold greatCircleDistance
  exact mul_nonneg (Real.sqrt_nonneg _) earthRadius_pos.le

lemma perpendicularDistance_nonneg (a b q : Coordinate) :
    0 ≤ perpendicularDistance a b q := by
  unfold perpendicularDistance
  exact greatCircleDistance_nonneg _ _

lemma c2_rad0 : ((0 : ℤ) : ℝ) / 1000000 * degreeToRad = 0 := by
  push_cast
  ring

lemma c2_rad60 : ((60000000 : ℤ) : ℝ) / 1000000 * degreeToRad = pi / 3 := by
  unfold degreeToRad
  push_cast
  ring

lemma c2_rad90 : ((90000000 : ℤ) : ℝ) / 1000000 * degreeToRad = pi / 2 := by
  unfold degreeToRad
  push_cast
  ring

lemma c2_hav : haversineDistance ⟨90000000, 60000000⟩ ⟨0, 0⟩ =
    earthRadius * (2 * (pi / 4)) := by
  simp only [haversineDistance]
  rw [c2_rad0, c2_rad60, c2_rad90]
  have h3 : (pi / 3 - 0) / 2 = pi / 6 := by ring
  have h4 : (pi / 2 - 0) / 2 = pi / 4 := by ring
  rw [h3, h4, Real.sin_pi_div_six, Real.cos_pi_div_three, Real.cos_zero,
    Real.sin_pi_div_four]
  have hs2 : (Real.sqrt 2 / 2) ^ 2 = 1 / 2 := by
    rw [div_pow, Real.sq_sqrt (by norm_num : (0:ℝ) ≤ 2)]
    norm_num
  have haharv : ((1 : ℝ) / 2) ^ 2 + 1 / 2 * 1 * (Real.sqrt 2 / 2) ^ 2 = 1 / 2 := by
    rw [hs2]
    norm_num
  rw [haharv]
  have hhalf : (1 : ℝ) - 1 / 2 = 1 / 2 := by norm_num
  rw [hhalf]
  have hpos : 0 < Real.sqrt (1 / 2) := Real.sqrt_pos.mpr (by norm_num)
  have hat : atan2 (Real.sqrt (1 / 2)) (Real.sqrt (1 / 2)) = pi / 4 := by
    unfold atan2
    rw [if_pos hpos, div_self (ne_of_gt hpos), Real.arctan_one]
  rw [hat]

lemma c2_segdist : findClosestDistanceSeg ⟨90000000, 60000000⟩ ⟨0, 0⟩ ⟨0, 0⟩ =
    earthRadius * (2 * (pi / 4)) := by
  have hproj : projectPointOnSegment (coordToFloat ⟨0, 0⟩) (coordToFloat ⟨0, 0⟩)
      (coordToFloat ⟨90000000, 60000000⟩) = (0, coordToFloat ⟨0, 0⟩) := by
    unfold projectPointOnSegment
    rw [if_pos]
    rw [sub_self, sub_self, mul_zero, add_zero]
    unfold epsR
    norm_num
  unfold findClosestDistanceSeg
  rw [hproj]
  rw [show ((0 : ℝ), coordToFloat ⟨0, 0⟩).2 = coordToFloat ⟨0, 0⟩ from rfl]
  have hfc : floatToCoord (coordToFloat ⟨0, 0⟩) = (⟨0, 0⟩ : Coordinate) := by
    unfold floatToCoord coordToFloat fixedToR
    norm_num
  rw [hfc, c2_hav]

lemma c2_latToY_zero : latToY 0 = 0 := by
  unfold latToY
  rw [zero_mul, zero_div, add_zero, Real.tan_pi_div_four, Real.log_one, mul_zero]

lemma c2_yToLat_zero : yToLat 0 = 0 := by
  unfold yToLat
  rw [zero_mul, Real.exp_zero, Real.arctan_one]
  field_simp
  norm_num

lemma c2_fromWGS84_zero : fromWGS84 ⟨0, 0⟩ = ((0 : ℝ), (0 : ℝ)) := by
  unfold fromWGS84 fixedToR
  norm_num [c2_latToY_zero]

lemma c2_perp : perpendicularDistance ⟨0, 0⟩ ⟨0, 0⟩ ⟨90000000, 60000000⟩ =
    Real.sqrt (43 * pi ^ 2 / 144) * earthRadius := by
  simp only [perpendicularDistance]
  rw [c2_fromWGS84_zero]
  have hproj : projectPointOnSegment ((0 : ℝ), (0 : ℝ)) ((0 : ℝ), (0 : ℝ))
      (fromWGS84 ⟨90000000, 60000000⟩) = (0, ((0 : ℝ), (0 : ℝ))) := by
    unfold projectPointOnSegment
    rw [if_pos]
    unfold epsR
    norm_num
  rw [hproj]
  rw [show ((0 : ℝ), ((0 : ℝ), (0 : ℝ))).2 = ((0 : ℝ), (0 : ℝ)) from rfl]
  have htw : toWGS84 ((0 : ℝ), (0 : ℝ)) = (⟨0, 0⟩ : Coordinate) := by
    unfold toWGS84
    norm_num [c2_yToLat_zero]
  rw [htw]
  simp only [greatCircleDistance]
  rw [c2_rad0, c2_rad60, c2_rad90]
  have h6 : (pi / 3 + 0) / 2 = pi / 6 := by ring
  rw [h6, Real.cos_pi_div_six]
  have hx : ((0 - pi / 2) * (Real.sqrt 3 / 2)) ^ 2 + (0 - pi / 3) ^ 2 =
      43 * pi ^ 2 / 144 := by
    have h3 : Real.sqrt 3 ^ 2 = 3 := Real.sq_sqrt (by norm_num)
    rw [mul_pow, div_pow, h3]
    ring
  rw [hx]

/-- C2 (counterexample): for the degenerate segment at (0, 0) and the query
point (lon 90°, lat 60°), findClosestDistance returns the haversine
distance R·π/2 to the raw-space projection, while perpendicularDistance
(mercator projection plus great-circle approximation) returns
R·π·√43/12 — the two queries disagree. -/
theorem findClosestDistance_ne_perpendicular :
    findClosestDistanceSeg ⟨90000000, 60000000⟩ ⟨0, 0⟩ ⟨0, 0⟩ ≠
      perpendicularDistance ⟨0, 0⟩ ⟨0, 0⟩ ⟨90000000, 60000000⟩ := by
  rw [c2_segdist, c2_perp]
  intro heq
  have hs : Real.sqrt (43 * pi ^ 2 / 144) = pi / 12 * Real.sqrt 43 := by
    rw [show (43 : ℝ) * pi ^ 2 / 144 = (pi / 12) ^ 2 * 43 by ring]
    rw [Real.sqrt_mul (sq_nonneg _), Real.sqrt_sq (by positivity)]
  rw [hs] at heq
  have hpi := Real.pi_pos
  have hR := earthRadius_pos
  have key : Real.sqrt 43 * (pi * earthRadius) = 6 * (pi * earthRadius) := by
    nlinarith [heq]
  have h6 : Real.sqrt 43 = 6 := mul_right_cancel₀ (ne_of_gt (mul_pos hpi hR)) key
  have h43 := Real.sq_sqrt (show (0 : ℝ) ≤ 43 by norm_num)
  rw [h6] at h43
  norm_num at h43

/-- C2 (amended): the point-to-segment findClosestDistance and
perpendicularDistance are distinct computations — findClosestDistance
takes the haversine distance to the projection performed directly in raw
longitude/latitude space, perpendicularDistance the great-circle distance
to the projection performed in the planar conformal (mercator) projection
— and they can return different values for the same segment and query
(see the counterexample); both always return a nonnegative distance. -/
theorem findClosestDistance_and_perpendicular_nonneg (a b q : Coordinate) :
    0 ≤ findClosestDistanceSeg q a b ∧ 0 ≤ perpendicularDistance a b q :=
  ⟨haversineDistance_nonneg _ _, perpendicularDistance_nonneg a b q⟩

/-! Facts about circle fitting (claims C4 and C7). -/

lemma qabs_fixedToQ_lt_eps (z : ℤ) : qabs (fixedToQ z) < epsQ ↔ z = 0 := by
  rw [qabs_eq]
  constructor
  · intro h
    by_contra hz
    have h1 : (1 : ℚ) ≤ |(z : ℚ)| := by
      rw [← Int.cast_abs]
      exact_mod_cast Int.one_le_abs hz
    have h2 : (1 : ℚ) / 1000000 ≤ |fixedToQ z| := by
      unfold fixedToQ
      rw [abs_div, abs_of_pos (show (0 : ℚ) < 1000000 by norm_num)]
      gcongr
    have h3 : epsQ < 1 / 1000000 := by unfold epsQ; norm_num
    linarith
  · intro h
    subst h
    unfold fixedToQ epsQ
    norm_num

lemma qabs_slope_lt_eps (dlat dlon : ℤ) (hd : dlon ≠ 0) (hb : |dlon| ≤ 360000000) :
    qabs (fixedToQ dlat / fixedToQ dlon) < epsQ ↔ dlat = 0 := by
  have hdq : ((dlon : ℚ)) ≠ 0 := Int.cast_ne_zero.mpr hd
  have hslope : fixedToQ dlat / fixedToQ dlon = (dlat : ℚ) / (dlon : ℚ) := by
    unfold fixedToQ
    field_simp
  rw [qabs_eq, hslope]
  constructor
  · intro h
    by_contra hz
    have h1 : (1 : ℚ) ≤ |(dlat : ℚ)| := by
      rw [← Int.cast_abs]
      exact_mod_cast Int.one_le_abs hz
    have h2 : |(dlon : ℚ)| ≤ 360000000 := by
      rw [← Int.cast_abs]
      exact_mod_cast hb
    have h2' : (0 : ℚ) < |(dlon : ℚ)| := abs_pos.mpr hdq
    have ha : (1 : ℚ) / 360000000 ≤ 1 / |(dlon : ℚ)| :=
      one_div_le_one_div_of_le h2' h2
    have hbb : (1 : ℚ) / |(dlon : ℚ)| ≤ |(dlat : ℚ)| / |(dlon : ℚ)| := by gcongr
    rw [abs_div] at h
    have h5 : epsQ < 1 / 360000000 := by unfold epsQ; norm_num
    linarith
  · intro h
    subst h
    rw [Int.cast_zero, zero_div, abs_zero]
    unfold epsQ
    norm_num

/-- One-step unfolding of circleCenterF at positive fuel (the recursion
equation of the source function, with the let bindings inlined). -/
lemma circleCenterF_succ_eq (fuel : ℕ) (C1 C2 C3 : Coordinate) :
    circleCenterF (fuel + 1) C1 C2 C3 =
      (if C1 = C2 ∨ C2 = C3 ∨ C1 = C3 then some none
      else if (qabs (fixedToQ (C2.lon - C1.lon)) < epsQ ∧
            qabs (fixedToQ (C3.lon - C2.lon)) < epsQ) ∨
          (qabs (fixedToQ (C2.lat - C1.lat)) < epsQ ∧
            qabs (fixedToQ (C3.lat - C2.lat)) < epsQ) then some none
      else if qabs (fixedToQ (C2.lon - C1.lon)) < epsQ then circleCenterF fuel C1 C3 C2
      else if qabs (fixedToQ (C3.lon - C2.lon)) < epsQ then circleCenterF fuel C2 C1 C3
      else if qabs (fixedToQ (C2.lat - C1.lat) / fixedToQ (C2.lon - C1.lon)) < epsQ then
        circleCenterF fuel C3 C2 C1
      else if qabs (fixedToQ (C2.lat - C1.lat) / fixedToQ (C2.lon - C1.lon) -
          fixedToQ (C3.lat - C2.lat) / fixedToQ (C3.lon - C2.lon)) < epsQ then some none
      else if (fixedToQ (C2.lat - C1.lat) / fixedToQ (C2.lon - C1.lon) *
              (fixedToQ (C3.lat - C2.lat) / fixedToQ (C3.lon - C2.lon)) *
              (fixedToQ C1.lat - fixedToQ C3.lat) +
            fixedToQ (C3.lat - C2.lat) / fixedToQ (C3.lon - C2.lon) *
              (fixedToQ C1.lon + fixedToQ C2.lon) -
            fixedToQ (C2.lat - C1.lat) / fixedToQ (C2.lon - C1.lon) *
              (fixedToQ C2.lon + fixedToQ C3.lon)) /
            (2 * (fixedToQ (C3.lat - C2.lat) / fixedToQ (C3.lon - C2.lon) -
              fixedToQ (C2.lat - C1.lat) / fixedToQ (C2.lon - C1.lon))) < -180 ∨
          180 < (fixedToQ (C2.lat - C1.lat) / fixedToQ (C2.lon - C1.lon) *
              (fixedToQ (C3.lat - C2.lat) / fixedToQ (C3.lon - C2.lon)) *
              (fixedToQ C1.lat - fixedToQ C3.lat) +
            fixedToQ (C3.lat - C2.lat) / fixedToQ (C3.lon - C2.lon) *
              (fixedToQ C1.lon + fixedToQ C2.lon) -
            fixedToQ (C2.lat - C1.lat) / fixedToQ (C2.lon - C1.lon) *
              (fixedToQ C2.lon + fixedToQ C3.lon)) /
            (2 * (fixedToQ (C3.lat - C2.lat) / fixedToQ (C3.lon - C2.lon) -
              fixedToQ (C2.lat - C1.lat) / fixedToQ (C2.lon - C1.lon))) ∨
          (1 / 2 * (fixedToQ C1.lon + fixedToQ C2.lon) -
              (fixedToQ (C2.lat - C1.lat) / fixedToQ (C2.lon - C1.lon) *
                  (fixedToQ (C3.lat - C2.lat) / fixedToQ (C3.lon - C2.lon)) *
                  (fixedToQ C1.lat - fixedToQ C3.lat) +
                fixedToQ (C3.lat - C2.lat) / fixedToQ (C3.lon - C2.lon) *
                  (fixedToQ C1.lon + fixedToQ C2.lon) -
                fixedToQ (C2.lat - C1.lat) / fixedToQ (C2.lon - C1.lon) *
                  (fixedToQ C2.lon + fixedToQ C3.lon)) /
                (2 * (fixedToQ (C3.lat - C2.lat) / fixedToQ (C3.lon - C2.lon) -
                  fixedToQ (C2.lat - C1.lat) / fixedToQ (C2.lon - C1.lon)))) /
              (fixedToQ (C2.lat - C1.lat) / fixedToQ (C2.lon - C1.lon)) +
            1 / 2 * (fixedToQ C1.lat + fixedToQ C2.lat) < -90 ∨
          90 < (1 / 2 * (fixedToQ C1.lon + fixedToQ C2.lon) -
              (fixedToQ (C2.lat - C1.lat) / fixedToQ (C2.lon - C1.lon) *
                  (fixedToQ (C3.lat - C2.lat) / fixedToQ (C3.lon - C2.lon)) *
                  (fixedToQ C1.lat - fixedToQ C3.lat) +
                fixedToQ (C3.lat - C2.lat) / fixedToQ (C3.lon - C2.lon) *
                  (fixedToQ C1.lon + fixedToQ C2.lon) -
                fixedToQ (C2.lat - C1.lat) / fixedToQ (C2.lon - C1.lon) *
                  (fixedToQ C2.lon + fixedToQ C3.lon)) /
                (2 * (fixedToQ (C3.lat - C2.lat) / fixedToQ (C3.lon - C2.lon) -
                  fixedToQ (C2.lat - C1.lat) / fixedToQ (C2.lon - C1.lon)))) /
              (fixedToQ (C2.lat - C1.lat) / fixedToQ (C2.lon - C1.lon)) +
            1 / 2 * (fixedToQ C1.lat + fixedToQ C2.lat) then some none
      else some (some
        ⟨round ((fixedToQ (C2.lat - C1.lat) / fixedToQ (C2.lon - C1.lon) *
              (fixedToQ (C3.lat - C2.lat) / fixedToQ (C3.lon - C2.lon)) *
              (fixedToQ C1.lat - fixedToQ C3.lat) +
            fixedToQ (C3.lat - C2.lat) / fixedToQ (C3.lon - C2.lon) *
              (fixedToQ C1.lon + fixedToQ C2.lon) -
            fixedToQ (C2.lat - C1.lat) / fixedToQ (C2.lon - C1.lon) *
              (fixedToQ C2.lon + fixedToQ C3.lon)) /
            (2 * (fixedToQ (C3.lat - C2.lat) / fixedToQ (C3.lon - C2.lon) -
              fixedToQ (C2.lat - C1.lat) / fixedToQ (C2.lon - C1.lon))) * 1000000),
          round (((1 / 2 * (fixedToQ C1.lon + fixedToQ C2.lon) -
              (fixedToQ (C2.lat - C1.lat) / fixedToQ (C2.lon - C1.lon) *
                  (fixedToQ (C3.lat - C2.lat) / fixedToQ (C3.lon - C2.lon)) *
                  (fixedToQ C1.lat - fixedToQ C3.lat) +
                fixedToQ (C3.lat - C2.lat) / fixedToQ (C3.lon - C2.lon) *
                  (fixedToQ C1.lon + fixedToQ C2.lon) -
                fixedToQ (C2.lat - C1.lat) / fixedToQ (C2.lon - C1.lon) *
                  (fixedToQ C2.lon + fixedToQ C3.lon)) /
                (2 * (fixedToQ (C3.lat - C2.lat) / fixedToQ (C3.lon - C2.lon) -
                  fixedToQ (C2.lat - C1.lat) / fixedToQ (C2.lon - C1.lon)))) /
              (fixedToQ (C2.lat - C1.lat) / fixedToQ (C2.lon - C1.lon)) +
            1 / 2 * (fixedToQ C1.lat + fixedToQ C2.lat)) * 1000000)⟩)) := rfl

lemma circleCenterF_isSome_generic (n : ℕ) (A B C : Coordinate)
    (h1 : B.lon ≠ A.lon) (h2 : C.lon ≠ B.lon) (h3 : B.lat ≠ A.lat)
    (hb : |B.lon - A.lon| ≤ 360000000) :
    (circleCenterF (n + 1) A B C).isSome := by
  have hd1 : B.lon - A.lon ≠ 0 := sub_ne_zero.mpr h1
  have hd2 : C.lon - B.lon ≠ 0 := sub_ne_zero.mpr h2
  have hd3 : B.lat - A.lat ≠ 0 := sub_ne_zero.mpr h3
  rw [circleCenterF_succ_eq]
  split_ifs with k1 k2 k3 k4 k5 k6 k7 <;>
    first
      | rfl
      | exact absurd ((qabs_fixedToQ_lt_eps _).mp k3) hd1
      | exact absurd ((qabs_fixedToQ_lt_eps _).mp k4) hd2
      | exact absurd ((qabs_slope_lt_eps _ _ hd1 hb).mp k5) hd3
      | simp

lemma circleCenterF_isSome_semi (n : ℕ) (A B C : Coordinate)
    (h1 : B.lon ≠ A.lon) (h2 : C.lon ≠ B.lon) (hAC : A ≠ C)
    (hb1 : |B.lon - A.lon| ≤ 360000000) (hb2 : |B.lon - C.lon| ≤ 360000000) :
    (circleCenterF (n + 1 + 1) A B C).isSome := by
  by_cases h3 : B.lat = A.lat
  case neg => exact circleCenterF_isSome_generic (n + 1) A B C h1 h2 h3 hb1
  case pos =>
    have hd1 : B.lon - A.lon ≠ 0 := sub_ne_zero.mpr h1
    have hd2 : C.lon - B.lon ≠ 0 := sub_ne_zero.mpr h2
    have heq : ¬(A = B ∨ B = C ∨ A = C) := by
      rintro (he | he | he)
      · exact h1 (congrArg Coordinate.lon he).symm
      · exact h2 (congrArg Coordinate.lon he).symm
      · exact hAC he
    by_cases hCB : C.lat = B.lat
    · have hlat1 : qabs (fixedToQ (B.lat - A.lat)) < epsQ :=
        (qabs_fixedToQ_lt_eps _).mpr (by omega)
      have hlat2 : qabs (fixedToQ (C.lat - B.lat)) < epsQ :=
        (qabs_fixedToQ_lt_eps _).mpr (by omega)
      rw [circleCenterF_succ_eq]
      rw [if_neg heq, if_pos (Or.inr ⟨hlat1, hlat2⟩)]
      rfl
    · have hb2cond : ¬((qabs (fixedToQ (B.lon - A.lon)) < epsQ ∧
            qabs (fixedToQ (C.lon - B.lon)) < epsQ) ∨
          (qabs (fixedToQ (B.lat - A.lat)) < epsQ ∧
            qabs (fixedToQ (C.lat - B.lat)) < epsQ)) := by
        rintro (⟨ha, _⟩ | ⟨_, hbq⟩)
        · exact hd1 ((qabs_fixedToQ_lt_eps _).mp ha)
        · have := (qabs_fixedToQ_lt_eps _).mp hbq
          exact hCB (by omega)
      have hb3cond : ¬(qabs (fixedToQ (B.lon - A.lon)) < epsQ) := by
        rw [qabs_fixedToQ_lt_eps]
        exact hd1
      have hb4cond : ¬(qabs (fixedToQ (C.lon - B.lon)) < epsQ) := by
        rw [qabs_fixedToQ_lt_eps]
        exact hd2
      have hb5cond : qabs (fixedToQ (B.lat - A.lat) / fixedToQ (B.lon - A.lon)) < epsQ :=
        (qabs_slope_lt_eps _ _ hd1 hb1).mpr (by omega)
      rw [circleCenterF_succ_eq]
      rw [if_neg heq, if_neg hb2cond, if_neg hb3cond, if_neg hb4cond, if_pos hb5cond]
      exact circleCenterF_isSome_generic n C B A (fun he => h2 he.symm)
        (fun he => h1 he.symm) (fun he => hCB he.symm) hb2

/-- C4: for every triple of valid coordinates, circleCenter reaches a
non-recursive case within the recursion budget 3 (the permute-and-recurse
handling of vertical and zero-slope chords always bottoms out): the
fuel-instrumented computation with budget 4 never exhausts its fuel. -/
theorem circleCenter_terminates (A B C : Coordinate)
    (hA : validCoord A) (hB : validCoord B) (hC : validCoord C) :
    (circleCenterF 4 A B C).isSome := by
  obtain ⟨hAlon, hAlat⟩ := hA
  obtain ⟨hBlon, hBlat⟩ := hB
  obtain ⟨hClon, hClat⟩ := hC
  rw [abs_le] at hAlon hBlon hClon
  have bBA : |B.lon - A.lon| ≤ 360000000 := abs_le.mpr (by omega)
  have b1 : |C.lon - A.lon| ≤ 360000000 := abs_le.mpr (by omega)
  have b2 : |C.lon - B.lon| ≤ 360000000 := abs_le.mpr (by omega)
  have b3 : |A.lon - B.lon| ≤ 360000000 := abs_le.mpr (by omega)
  have b4 : |A.lon - C.lon| ≤ 360000000 := abs_le.mpr (by omega)
  have b5 : |B.lon - C.lon| ≤ 360000000 := abs_le.mpr (by omega)
  show (circleCenterF (3 + 1) A B C).isSome
  rw [circleCenterF_succ_eq]
  split_ifs with k1 k2 k3 k4 k5 k6 k7
  · rfl
  · rfl
  · have he1 : B.lon = A.lon := by
      have := (qabs_fixedToQ_lt_eps _).mp k3
      omega
    have he2 : C.lon ≠ B.lon := by
      intro hcb
      exact k2 (Or.inl ⟨k3, (qabs_fixedToQ_lt_eps _).mpr (by omega)⟩)
    have hA_ne_B : A ≠ B := fun he => k1 (Or.inl he)
    have h1' : C.lon ≠ A.lon := fun he => he2 (by omega)
    have h2' : B.lon ≠ C.lon := fun he => he2 he.symm
    exact circleCenterF_isSome_semi 1 A C B h1' h2' hA_ne_B b1 b2
  · have he1 : C.lon = B.lon := by
      have := (qabs_fixedToQ_lt_eps _).mp k4
      omega
    have he2 : B.lon ≠ A.lon := by
      intro h
      exact k3 ((qabs_fixedToQ_lt_eps _).mpr (by omega))
    have hB_ne_C : B ≠ C := fun he => k1 (Or.inr (Or.inl he))
    exact circleCenterF_isSome_semi 1 B A C (fun he => he2 he.symm)
      (fun he => he2 (by omega)) hB_ne_C b3 b4
  · have hlonBA : B.lon - A.lon ≠ 0 := by
      intro h
      exact k3 ((qabs_fixedToQ_lt_eps _).mpr h)
    have hlatBA : B.lat = A.lat := by
      have := (qabs_slope_lt_eps _ _ hlonBA bBA).mp k5
      omega
    have hlatCB : C.lat ≠ B.lat := by
      intro h
      exact k2 (Or.inr ⟨(qabs_fixedToQ_lt_eps _).mpr (by omega),
        (qabs_fixedToQ_lt_eps _).mpr (by omega)⟩)
    have hlonCB : C.lon - B.lon ≠ 0 := by
      intro h
      exact k4 ((qabs_fixedToQ_lt_eps _).mpr h)
    exact circleCenterF_isSome_generic 2 C B A (fun he => hlonCB (by omega))
      (fun he => hlonBA (by omega)) (fun he => hlatCB (by omega)) b5
  · rfl
  · rfl
  · rfl

theorem circleCenter_terminates_witness :
    (validCoord ⟨0, 0⟩ ∧ validCoord ⟨0, 1000000⟩ ∧ validCoord ⟨0, 2000000⟩) ∧
      (circleCenterF 4 ⟨0, 0⟩ ⟨0, 1000000⟩ ⟨0, 2000000⟩).isSome :=
  ⟨⟨by decide, by decide, by decide⟩,
    circleCenter_terminates ⟨0, 0⟩ ⟨0, 1000000⟩ ⟨0, 2000000⟩
      (by decide) (by decide) (by decide)⟩

/-- C7: circleRadius is infinite exactly when circleCenter reports no
center, and when a center exists the radius is the haversine distance from
the first input point to that center. -/
theorem circleRadius_infinite_iff (A B C : Coordinate) :
    (circleRadius A B C = ⊤ ↔ circleCenter A B C = none) ∧
      ∀ ctr, circleCenter A B C = some ctr →
        circleRadius A B C = ((haversineDistance A ctr : ℝ) : EReal) := by
  unfold circleRadius
  rcases h : circleCenter A B C with _ | ctr
  · constructor
    · simp
    · intro ctr hctr
      exact absurd hctr (by simp)
  · constructor
    · simp [EReal.coe_ne_top]
    · intro ctr' hctr
      have he : ctr = ctr' := Option.some.inj hctr
      rw [← he]

lemma c7_center_eval : circleCenterF 4 ⟨0, 0⟩ ⟨1000000, 0⟩ ⟨0, 1000000⟩ =
    some (some ⟨500000, 500000⟩) := by
  show circleCenterF (3 + 1) ⟨0, 0⟩ ⟨1000000, 0⟩ ⟨0, 1000000⟩ =
    some (some ⟨500000, 500000⟩)
  simp only [circleCenterF]
  norm_num [qabs, epsQ, fixedToQ, Coordinate.mk.injEq]

theorem circleRadius_infinite_iff_witness :
    circleCenter ⟨0, 0⟩ ⟨1000000, 0⟩ ⟨0, 1000000⟩ = some ⟨500000, 500000⟩ ∧
      circleRadius ⟨0, 0⟩ ⟨1000000, 0⟩ ⟨0, 1000000⟩ =
        ((haversineDistance ⟨0, 0⟩ ⟨500000, 500000⟩ : ℝ) : EReal) := by
  have hc : circleCenter ⟨0, 0⟩ ⟨1000000, 0⟩ ⟨0, 1000000⟩ = some ⟨500000, 500000⟩ := by
    unfold circleCenter
    rw [c7_center_eval]
    rfl
  exact ⟨hc, (circleRadius_infinite_iff ⟨0, 0⟩ ⟨1000000, 0⟩ ⟨0, 1000000⟩).2
    ⟨500000, 500000⟩ hc⟩

end CoordCalc
